import Mathlib

/-!
Shallow embedding of `llama_index/settings.py` (the lazily-initialized global
settings facade `_Settings`, its derived properties, and the
`*_from_settings_or_context` migration helpers) and of the generated union type
`ConfiguredTransformationItemComponentOne`.

External collaborators (`resolve_llm`, `resolve_embed_model`, `CallbackManager()`,
`get_tokenizer`, `SentenceSplitter()`, `PromptHelper()` /
`PromptHelper.from_llm_metadata`, `set_global_handler`) are opaque: they are
packaged as parameters in an `Externals` record, and every theorem quantifies
over them.  Stateful Python code becomes explicit state passing: each property
getter returns its value, the updated settings record, and the list of fields
whose lazy default rule ran during the call.
-/

/-- Opaque metadata record attached to an LLM handle (external collaborator). -/
structure LLMMetadata where
  id : Nat
deriving DecidableEq, Repr

/-- Opaque pydantic program mode value (external enum `PydanticProgramMode`). -/
structure PydanticProgramMode where
  id : Nat
deriving DecidableEq, Repr

/-- Opaque language-model handle.  The facade only reads `.metadata` and
reads/writes `.pydantic_program_mode`, so those are the modelled attributes. -/
structure LLM where
  id : Nat
  metadata : LLMMetadata
  pydantic_program_mode : PydanticProgramMode
deriving DecidableEq, Repr

/-- Opaque embedding-model handle (`BaseEmbedding`). -/
structure BaseEmbedding where
  id : Nat
deriving DecidableEq, Repr

/-- Opaque callback dispatcher (`CallbackManager`). -/
structure CallbackManager where
  id : Nat
deriving DecidableEq, Repr

/-- Opaque global callback handler (`BaseCallbackHandler`). -/
structure BaseCallbackHandler where
  id : Nat
deriving DecidableEq, Repr

/-- Opaque tokenizer value (`Callable[[str], List[Any]]`). -/
structure Tokenizer where
  id : Nat
deriving DecidableEq, Repr

/-- A node parser / text splitter.  Python checks `hasattr(parser, "chunk_size")`
and `hasattr(parser, "chunk_overlap")` dynamically; an `Option` models
presence or absence of each attribute. -/
structure NodeParser where
  id : Nat
  chunk_size : Option Int
  chunk_overlap : Option Int
deriving DecidableEq, Repr

/-- Opaque prompt-sizing helper.  The facade reads/writes `.num_output` and
`.context_window`, so those are the modelled attributes. -/
structure PromptHelper where
  id : Nat
  num_output : Int
  context_window : Int
deriving DecidableEq, Repr

/-- A transformation step: node parsers are transform components, and other
component kinds stay opaque. -/
inductive TransformComponent where
  | ofNodeParser (p : NodeParser)
  | other (id : Nat)
deriving DecidableEq, Repr

/-- Python exception kinds relevant to this module: the source raises
`ValueError`; `UnsupportedOperation` (the class named by the spec) is a
distinct Python exception class. -/
inductive PyError where
  | valueError (msg : String)
  | unsupportedOperation (msg : String)
deriving DecidableEq, Repr

/-- The external collaborators consumed by `settings.py`, kept opaque:
every theorem below holds for an arbitrary `Externals` instance. -/
structure Externals where
  resolve_llm : String → LLM
  resolve_embed_model : String → BaseEmbedding
  callback_manager_new : CallbackManager
  get_tokenizer : Tokenizer
  sentence_splitter_new : NodeParser
  prompt_helper_new : PromptHelper
  prompt_helper_from_llm_metadata : LLMMetadata → PromptHelper
  set_global_handler : String → Option BaseCallbackHandler

/-- The lazily-initialized settings dataclass `_Settings`: each field is `None`
until first read.  (`_node_parser` is rendered `_nodeParser`.) -/
structure _Settings where
  _llm : Option LLM := none
  _embed_model : Option BaseEmbedding := none
  _callback_manager : Option CallbackManager := none
  _tokenizer : Option Tokenizer := none
  _nodeParser : Option NodeParser := none
  _prompt_helper : Option PromptHelper := none
  _transformations : Option (List TransformComponent) := none
deriving DecidableEq, Repr

/-- The seven lazily-initialized fields of the facade. -/
inductive SField where
  | llm
  | embed_model
  | callback_manager
  | tokenizer
  | nodeParser
  | prompt_helper
  | transformations
deriving DecidableEq, Repr

/-- Getter for `llm`: resolve the default LLM on first read, then cache. -/
def llm_get (ext : Externals) (s : _Settings) : LLM × _Settings × List SField :=
  match s._llm with
  | none =>
      let v := ext.resolve_llm "default"
      (v, { s with _llm := some v }, [SField.llm])
  | some v => (v, s, [])

/-- Setter for `llm`: overwrite the cached value unconditionally. -/
def llm_set (v : LLM) (s : _Settings) : _Settings :=
  { s with _llm := some v }

/-- Getter for `pydantic_program_mode`: delegates to `self.llm`. -/
def pydantic_program_mode_get (ext : Externals) (s : _Settings) :
    PydanticProgramMode × _Settings × List SField :=
  let r := llm_get ext s
  (r.1.pydantic_program_mode, r.2.1, r.2.2)

/-- Setter for `pydantic_program_mode`: mutates the attribute on `self.llm`. -/
def pydantic_program_mode_set (ext : Externals) (v : PydanticProgramMode)
    (s : _Settings) : _Settings × List SField :=
  let r := llm_get ext s
  ({ r.2.1 with _llm := some { r.1 with pydantic_program_mode := v } }, r.2.2)

/-- Getter for `embed_model`: resolve the default embedding on first read. -/
def embed_model_get (ext : Externals) (s : _Settings) :
    BaseEmbedding × _Settings × List SField :=
  match s._embed_model with
  | none =>
      let v := ext.resolve_embed_model "default"
      (v, { s with _embed_model := some v }, [SField.embed_model])
  | some v => (v, s, [])

/-- Setter for `embed_model`. -/
def embed_model_set (v : BaseEmbedding) (s : _Settings) : _Settings :=
  { s with _embed_model := some v }

/-- Getter for `callback_manager`: constructs `CallbackManager()` on first read. -/
def callback_manager_get (ext : Externals) (s : _Settings) :
    CallbackManager × _Settings × List SField :=
  match s._callback_manager with
  | none =>
      let v := ext.callback_manager_new
      (v, { s with _callback_manager := some v }, [SField.callback_manager])
  | some v => (v, s, [])

/-- Setter for `callback_manager`. -/
def callback_manager_set (v : CallbackManager) (s : _Settings) : _Settings :=
  { s with _callback_manager := some v }

/-- Getter for `tokenizer`: calls `get_tokenizer()` on first read. -/
def tokenizer_get (ext : Externals) (s : _Settings) :
    Tokenizer × _Settings × List SField :=
  match s._tokenizer with
  | none =>
      let v := ext.get_tokenizer
      (v, { s with _tokenizer := some v }, [SField.tokenizer])
  | some v => (v, s, [])

/-- Getter for `node_parser`: constructs `SentenceSplitter()` on first read. -/
def nodeParser_get (ext : Externals) (s : _Settings) :
    NodeParser × _Settings × List SField :=
  match s._nodeParser with
  | none =>
      let v := ext.sentence_splitter_new
      (v, { s with _nodeParser := some v }, [SField.nodeParser])
  | some v => (v, s, [])

/-- Setter for `node_parser`. -/
def nodeParser_set (v : NodeParser) (s : _Settings) : _Settings :=
  { s with _nodeParser := some v }

/-- Getter for `text_splitter`: `return self.node_parser`. -/
def text_splitter_get (ext : Externals) (s : _Settings) :
    NodeParser × _Settings × List SField :=
  nodeParser_get ext s

/-- Setter for `text_splitter`: `self.node_parser = text_splitter`. -/
def text_splitter_set (v : NodeParser) (s : _Settings) : _Settings :=
  nodeParser_set v s

/-- Getter for `chunk_size`: reads through `self.node_parser` (materializing it
if needed), raising `ValueError` when the parser lacks the attribute.  The
source reads `self.node_parser` twice (once in `hasattr`, once to read). -/
def chunk_size_get (ext : Externals) (s : _Settings) :
    Except PyError Int × _Settings × List SField :=
  let r := nodeParser_get ext s
  match r.1.chunk_size with
  | some _ =>
      let r2 := nodeParser_get ext r.2.1
      (Except.ok (r2.1.chunk_size.getD 0), r2.2.1, r.2.2 ++ r2.2.2)
  | none =>
      (Except.error
        (PyError.valueError "Configured node parser does not have chunk size."),
       r.2.1, r.2.2)

/-- Setter for `chunk_size`: writes through to the parser attribute, raising
`ValueError` when the parser lacks the attribute. -/
def chunk_size_set (ext : Externals) (v : Int) (s : _Settings) :
    Except PyError Unit × _Settings × List SField :=
  let r := nodeParser_get ext s
  match r.1.chunk_size with
  | some _ =>
      let r2 := nodeParser_get ext r.2.1
      (Except.ok (),
       { r2.2.1 with _nodeParser := some { r2.1 with chunk_size := some v } },
       r.2.2 ++ r2.2.2)
  | none =>
      (Except.error
        (PyError.valueError "Configured node parser does not have chunk size."),
       r.2.1, r.2.2)

/-- Getter for `chunk_overlap`: like `chunk_size`, for the overlap attribute. -/
def chunk_overlap_get (ext : Externals) (s : _Settings) :
    Except PyError Int × _Settings × List SField :=
  let r := nodeParser_get ext s
  match r.1.chunk_overlap with
  | some _ =>
      let r2 := nodeParser_get ext r.2.1
      (Except.ok (r2.1.chunk_overlap.getD 0), r2.2.1, r.2.2 ++ r2.2.2)
  | none =>
      (Except.error
        (PyError.valueError "Configured node parser does not have chunk overlap."),
       r.2.1, r.2.2)

/-- Setter for `chunk_overlap`. -/
def chunk_overlap_set (ext : Externals) (v : Int) (s : _Settings) :
    Except PyError Unit × _Settings × List SField :=
  let r := nodeParser_get ext s
  match r.1.chunk_overlap with
  | some _ =>
      let r2 := nodeParser_get ext r.2.1
      (Except.ok (),
       { r2.2.1 with _nodeParser := some { r2.1 with chunk_overlap := some v } },
       r.2.2 ++ r2.2.2)
  | none =>
      (Except.error
        (PyError.valueError "Configured node parser does not have chunk overlap."),
       r.2.1, r.2.2)

/-- Getter for `prompt_helper`: if an LLM handle is already set and no helper is
cached, derive the helper from the model's metadata; otherwise, if no helper is
cached, use the parameterless `PromptHelper()`; else return the cache. -/
def prompt_helper_get (ext : Externals) (s : _Settings) :
    PromptHelper × _Settings × List SField :=
  match s._llm, s._prompt_helper with
  | some l, none =>
      let v := ext.prompt_helper_from_llm_metadata l.metadata
      (v, { s with _prompt_helper := some v }, [SField.prompt_helper])
  | none, none =>
      let v := ext.prompt_helper_new
      (v, { s with _prompt_helper := some v }, [SField.prompt_helper])
  | _, some v => (v, s, [])

/-- Setter for `prompt_helper`. -/
def prompt_helper_set (v : PromptHelper) (s : _Settings) : _Settings :=
  { s with _prompt_helper := some v }

/-- Getter for `num_output`: delegates to `self.prompt_helper`. -/
def num_output_get (ext : Externals) (s : _Settings) :
    Int × _Settings × List SField :=
  let r := prompt_helper_get ext s
  (r.1.num_output, r.2.1, r.2.2)

/-- Setter for `num_output`: mutates the attribute on `self.prompt_helper`. -/
def num_output_set (ext : Externals) (v : Int) (s : _Settings) :
    _Settings × List SField :=
  let r := prompt_helper_get ext s
  ({ r.2.1 with _prompt_helper := some { r.1 with num_output := v } }, r.2.2)

/-- Getter for `context_window`: delegates to `self.prompt_helper`. -/
def context_window_get (ext : Externals) (s : _Settings) :
    Int × _Settings × List SField :=
  let r := prompt_helper_get ext s
  (r.1.context_window, r.2.1, r.2.2)

/-- Setter for `context_window`: mutates the attribute on `self.prompt_helper`. -/
def context_window_set (ext : Externals) (v : Int) (s : _Settings) :
    _Settings × List SField :=
  let r := prompt_helper_get ext s
  ({ r.2.1 with _prompt_helper := some { r.1 with context_window := v } }, r.2.2)

/-- Getter for `transformations`: defaults to `[self.node_parser]` (reading
`self.node_parser` through its own getter) on first read. -/
def transformations_get (ext : Externals) (s : _Settings) :
    List TransformComponent × _Settings × List SField :=
  match s._transformations with
  | none =>
      let r := nodeParser_get ext s
      let v := [TransformComponent.ofNodeParser r.1]
      (v, { r.2.1 with _transformations := some v },
       r.2.2 ++ [SField.transformations])
  | some v => (v, s, [])

/-- Setter for `transformations`: replaces the sequence wholesale. -/
def transformations_set (v : List TransformComponent) (s : _Settings) :
    _Settings :=
  { s with _transformations := some v }

/-- The Python type of each lazily-initialized field. -/
def SField.ty : SField → Type
  | .llm => LLM
  | .embed_model => BaseEmbedding
  | .callback_manager => CallbackManager
  | .tokenizer => Tokenizer
  | .nodeParser => NodeParser
  | .prompt_helper => PromptHelper
  | .transformations => List TransformComponent

/-- The raw cached slot (the underscore-prefixed dataclass attribute) of a field. -/
def fieldOpt : (f : SField) → _Settings → Option f.ty
  | .llm, s => s._llm
  | .embed_model, s => s._embed_model
  | .callback_manager, s => s._callback_manager
  | .tokenizer, s => s._tokenizer
  | .nodeParser, s => s._nodeParser
  | .prompt_helper, s => s._prompt_helper
  | .transformations, s => s._transformations

/-- Dispatch to the property getter of a field. -/
def getField : (f : SField) → Externals → _Settings → f.ty × _Settings × List SField
  | .llm, ext, s => llm_get ext s
  | .embed_model, ext, s => embed_model_get ext s
  | .callback_manager, ext, s => callback_manager_get ext s
  | .tokenizer, ext, s => tokenizer_get ext s
  | .nodeParser, ext, s => nodeParser_get ext s
  | .prompt_helper, ext, s => prompt_helper_get ext s
  | .transformations, ext, s => transformations_get ext s

/-- Dispatch to the property setter of a field (the world-level `tokenizer`
setter additionally updates the deprecated global tokenizer; see
`tokenizer_set_world`). -/
def setField : (f : SField) → f.ty → _Settings → _Settings
  | .llm, v, s => llm_set v s
  | .embed_model, v, s => embed_model_set v s
  | .callback_manager, v, s => callback_manager_set v s
  | .tokenizer, v, s => { s with _tokenizer := some v }
  | .nodeParser, v, s => nodeParser_set v s
  | .prompt_helper, v, s => prompt_helper_set v s
  | .transformations, v, s => transformations_set v s

/-- The documented default rule of each field, read off the `None` branch of its
getter: resolve the default LLM / embedding, construct `CallbackManager()`,
call `get_tokenizer()`, construct `SentenceSplitter()`, build the prompt
helper from the cached LLM's metadata when one is set (else parameterless),
and wrap the current node parser for `transformations`. -/
def defaultOf (ext : Externals) (s : _Settings) : (f : SField) → f.ty
  | .llm => ext.resolve_llm "default"
  | .embed_model => ext.resolve_embed_model "default"
  | .callback_manager => ext.callback_manager_new
  | .tokenizer => ext.get_tokenizer
  | .nodeParser => ext.sentence_splitter_new
  | .prompt_helper =>
      match s._llm with
      | some l => ext.prompt_helper_from_llm_metadata l.metadata
      | none => ext.prompt_helper_new
  | .transformations => [TransformComponent.ofNodeParser (nodeParser_get ext s).1]

/-- Process-global state surrounding the settings singleton: the module-level
global tokenizer (written by the deprecated `set_global_tokenizer`) and the
module-level global handler (`llama_index.global_handler`). -/
structure World where
  settings : _Settings
  global_tokenizer : Option Tokenizer
  global_handler : Option BaseCallbackHandler
deriving DecidableEq, Repr

/-- Modelled from the spec: `set_global_tokenizer` (from `llama_index.utils`,
not under `src/`) is the deprecated global-tokenizer setter; it overwrites the
process-global tokenizer state with the given value. -/
def set_global_tokenizer (t : Tokenizer) (w : World) : World :=
  { w with global_tokenizer := some t }

/-- Setter for `tokenizer`: caches the value in the settings record, then also
invokes the deprecated `set_global_tokenizer` with the same value. -/
def tokenizer_set_world (v : Tokenizer) (w : World) : World :=
  let w1 := { w with settings := { w.settings with _tokenizer := some v } }
  set_global_tokenizer v w1

/-- Getter for `global_handler`: reads the module-level
`llama_index.global_handler` without touching the settings record. -/
def global_handler_get (w : World) : Option BaseCallbackHandler × World :=
  (w.global_handler, w)

/-- Setter for `global_handler`: calls the external `set_global_handler` with
the given mode, replacing the module-level handler with whatever that external
call installs. -/
def global_handler_set (ext : Externals) (mode : String) (w : World) : World :=
  { w with global_handler := ext.set_global_handler mode }

/-- Every operation of the settings facade: one get and one set per property,
including the derived and deprecated properties. -/
inductive Op where
  | get_llm
  | set_llm (v : LLM)
  | get_pydantic_program_mode
  | set_pydantic_program_mode (v : PydanticProgramMode)
  | get_embed_model
  | set_embed_model (v : BaseEmbedding)
  | get_global_handler
  | set_global_handler (mode : String)
  | get_callback_manager
  | set_callback_manager (v : CallbackManager)
  | get_tokenizer
  | set_tokenizer (v : Tokenizer)
  | get_nodeParser
  | set_nodeParser (v : NodeParser)
  | get_chunk_size
  | set_chunk_size (v : Int)
  | get_chunk_overlap
  | set_chunk_overlap (v : Int)
  | get_text_splitter
  | set_text_splitter (v : NodeParser)
  | get_prompt_helper
  | set_prompt_helper (v : PromptHelper)
  | get_num_output
  | set_num_output (v : Int)
  | get_context_window
  | set_context_window (v : Int)
  | get_transformations
  | set_transformations (v : List TransformComponent)
deriving DecidableEq, Repr

/-- Lift a settings-level state transformation to the world. -/
def liftS (f : _Settings → _Settings) (w : World) : World :=
  { w with settings := f w.settings }

/-- Run one facade operation on the world, returning the new world and the
fields whose lazy default rule ran during the call (return values dropped). -/
def step (ext : Externals) (op : Op) (w : World) : World × List SField :=
  match op with
  | .get_llm => (liftS (fun s => (llm_get ext s).2.1) w, (llm_get ext w.settings).2.2)
  | .set_llm v => (liftS (llm_set v) w, [])
  | .get_pydantic_program_mode =>
      (liftS (fun s => (pydantic_program_mode_get ext s).2.1) w,
       (pydantic_program_mode_get ext w.settings).2.2)
  | .set_pydantic_program_mode v =>
      (liftS (fun s => (pydantic_program_mode_set ext v s).1) w,
       (pydantic_program_mode_set ext v w.settings).2)
  | .get_embed_model =>
      (liftS (fun s => (embed_model_get ext s).2.1) w,
       (embed_model_get ext w.settings).2.2)
  | .set_embed_model v => (liftS (embed_model_set v) w, [])
  | .get_global_handler => ((global_handler_get w).2, [])
  | .set_global_handler mode => (global_handler_set ext mode w, [])
  | .get_callback_manager =>
      (liftS (fun s => (callback_manager_get ext s).2.1) w,
       (callback_manager_get ext w.settings).2.2)
  | .set_callback_manager v => (liftS (callback_manager_set v) w, [])
  | .get_tokenizer =>
      (liftS (fun s => (tokenizer_get ext s).2.1) w,
       (tokenizer_get ext w.settings).2.2)
  | .set_tokenizer v => (tokenizer_set_world v w, [])
  | .get_nodeParser =>
      (liftS (fun s => (nodeParser_get ext s).2.1) w,
       (nodeParser_get ext w.settings).2.2)
  | .set_nodeParser v => (liftS (nodeParser_set v) w, [])
  | .get_chunk_size =>
      (liftS (fun s => (chunk_size_get ext s).2.1) w,
       (chunk_size_get ext w.settings).2.2)
  | .set_chunk_size v =>
      (liftS (fun s => (chunk_size_set ext v s).2.1) w,
       (chunk_size_set ext v w.settings).2.2)
  | .get_chunk_overlap =>
      (liftS (fun s => (chunk_overlap_get ext s).2.1) w,
       (chunk_overlap_get ext w.settings).2.2)
  | .set_chunk_overlap v =>
      (liftS (fun s => (chunk_overlap_set ext v s).2.1) w,
       (chunk_overlap_set ext v w.settings).2.2)
  | .get_text_splitter =>
      (liftS (fun s => (text_splitter_get ext s).2.1) w,
       (text_splitter_get ext w.settings).2.2)
  | .set_text_splitter v => (liftS (text_splitter_set v) w, [])
  | .get_prompt_helper =>
      (liftS (fun s => (prompt_helper_get ext s).2.1) w,
       (prompt_helper_get ext w.settings).2.2)
  | .set_prompt_helper v => (liftS (prompt_helper_set v) w, [])
  | .get_num_output =>
      (liftS (fun s => (num_output_get ext s).2.1) w,
       (num_output_get ext w.settings).2.2)
  | .set_num_output v =>
      (liftS (fun s => (num_output_set ext v s).1) w,
       (num_output_set ext v w.settings).2)
  | .get_context_window =>
      (liftS (fun s => (context_window_get ext s).2.1) w,
       (context_window_get ext w.settings).2.2)
  | .set_context_window v =>
      (liftS (fun s => (context_window_set ext v s).1) w,
       (context_window_set ext v w.settings).2)
  | .get_transformations =>
      (liftS (fun s => (transformations_get ext s).2.1) w,
       (transformations_get ext w.settings).2.2)
  | .set_transformations v => (liftS (transformations_set v) w, [])

/-- Which operations are explicit assignments into a field: its own setter,
plus the derived setters that write through to the nested object (text
splitter / chunk attributes for the node parser; output and window sizes for
the prompt helper; program mode for the LLM). -/
def writers : SField → Op → Bool
  | .llm, .set_llm _ => true
  | .llm, .set_pydantic_program_mode _ => true
  | .embed_model, .set_embed_model _ => true
  | .callback_manager, .set_callback_manager _ => true
  | .tokenizer, .set_tokenizer _ => true
  | .nodeParser, .set_nodeParser _ => true
  | .nodeParser, .set_text_splitter _ => true
  | .nodeParser, .set_chunk_size _ => true
  | .nodeParser, .set_chunk_overlap _ => true
  | .prompt_helper, .set_prompt_helper _ => true
  | .prompt_helper, .set_num_output _ => true
  | .prompt_helper, .set_context_window _ => true
  | .transformations, .set_transformations _ => true
  | _, _ => false

/-- Which operations are setters (as opposed to getters). -/
def isSetter : Op → Bool
  | .set_llm _ => true
  | .set_pydantic_program_mode _ => true
  | .set_embed_model _ => true
  | .set_global_handler _ => true
  | .set_callback_manager _ => true
  | .set_tokenizer _ => true
  | .set_nodeParser _ => true
  | .set_chunk_size _ => true
  | .set_chunk_overlap _ => true
  | .set_text_splitter _ => true
  | .set_prompt_helper _ => true
  | .set_num_output _ => true
  | .set_context_window _ => true
  | .set_transformations _ => true
  | _ => false

/-- The legacy `ServiceContext` object: only the six attributes the migration
helpers read are modelled (it is external; the source imports it for typing
only). -/
structure ServiceContext where
  llm : LLM
  embed_model : BaseEmbedding
  callback_manager : CallbackManager
  nodeParser : NodeParser
  prompt_helper : PromptHelper
  transformations : List TransformComponent
deriving DecidableEq, Repr

/-- `llm_from_settings_or_context`: prefer the context's value when a context
is given, else read the facade (materializing its default if uncached). -/
def llm_from_settings_or_context (ext : Externals) (settings : _Settings)
    (context : Option ServiceContext) : LLM × _Settings :=
  match context with
  | some c => (c.llm, settings)
  | none =>
      let r := llm_get ext settings
      (r.1, r.2.1)

/-- `embed_model_from_settings_or_context`. -/
def embed_model_from_settings_or_context (ext : Externals) (settings : _Settings)
    (context : Option ServiceContext) : BaseEmbedding × _Settings :=
  match context with
  | some c => (c.embed_model, settings)
  | none =>
      let r := embed_model_get ext settings
      (r.1, r.2.1)

/-- `callback_manager_from_settings_or_context`. -/
def callback_manager_from_settings_or_context (ext : Externals)
    (settings : _Settings) (context : Option ServiceContext) :
    CallbackManager × _Settings :=
  match context with
  | some c => (c.callback_manager, settings)
  | none =>
      let r := callback_manager_get ext settings
      (r.1, r.2.1)

/-- `node_parser_from_settings_or_context`. -/
def node_parser_from_settings_or_context (ext : Externals) (settings : _Settings)
    (context : Option ServiceContext) : NodeParser × _Settings :=
  match context with
  | some c => (c.nodeParser, settings)
  | none =>
      let r := nodeParser_get ext settings
      (r.1, r.2.1)

/-- `prompt_helper_from_settings_or_context`. -/
def prompt_helper_from_settings_or_context (ext : Externals)
    (settings : _Settings) (context : Option ServiceContext) :
    PromptHelper × _Settings :=
  match context with
  | some c => (c.prompt_helper, settings)
  | none =>
      let r := prompt_helper_get ext settings
      (r.1, r.2.1)

/-- `transformations_from_settings_or_context`. -/
def transformations_from_settings_or_context (ext : Externals)
    (settings : _Settings) (context : Option ServiceContext) :
    List TransformComponent × _Settings :=
  match context with
  | some c => (c.transformations, settings)
  | none =>
      let r := transformations_get ext settings
      (r.1, r.2.1)

/-- The fields served by the `*_from_settings_or_context` free functions, one
constructor per free function defined in the source module. -/
inductive ResolverField where
  | llm
  | embed_model
  | callback_manager
  | nodeParser
  | prompt_helper
  | transformations
deriving DecidableEq, Repr

/-- The settings field a resolver serves. -/
def ResolverField.toSField : ResolverField → SField
  | .llm => SField.llm
  | .embed_model => SField.embed_model
  | .callback_manager => SField.callback_manager
  | .nodeParser => SField.nodeParser
  | .prompt_helper => SField.prompt_helper
  | .transformations => SField.transformations

/-- Enumeration of the fallback-resolver free functions present in the source,
in source order. -/
def settings_or_context_resolvers : List ResolverField :=
  [ResolverField.llm, ResolverField.embed_model, ResolverField.callback_manager,
   ResolverField.nodeParser, ResolverField.prompt_helper,
   ResolverField.transformations]

/-- The context attribute a resolver reads. -/
def contextField (c : ServiceContext) : (f : ResolverField) → f.toSField.ty
  | .llm => c.llm
  | .embed_model => c.embed_model
  | .callback_manager => c.callback_manager
  | .nodeParser => c.nodeParser
  | .prompt_helper => c.prompt_helper
  | .transformations => c.transformations

/-- Dispatch to the resolver free function of a field. -/
def from_settings_or_context : (f : ResolverField) → Externals → _Settings →
    Option ServiceContext → f.toSField.ty × _Settings
  | .llm, ext, s, c => llm_from_settings_or_context ext s c
  | .embed_model, ext, s, c => embed_model_from_settings_or_context ext s c
  | .callback_manager, ext, s, c => callback_manager_from_settings_or_context ext s c
  | .nodeParser, ext, s, c => node_parser_from_settings_or_context ext s c
  | .prompt_helper, ext, s, c => prompt_helper_from_settings_or_context ext s c
  | .transformations, ext, s, c => transformations_from_settings_or_context ext s c

/-- Modelled from the spec: the shapes of the closed tagged union
`ConfiguredTransformationItemComponentOne`, one per member listed in the
generated source. -/
inductive VariantShape where
  | keywordExtractor
  | titleExtractor
  | entityExtractor
  | marvinMetadataExtractor
  | summaryExtractor
  | questionsAnsweredExtractor
  | sentenceWindowNodeParser
  | hierarchicalNodeParser
  | codeNodeParser
  | sentenceAwareNodeParser
  | tokenAwareNodeParser
  | htmlNodeParser
  | markdownNodeParser
  | jsonNodeParser
  | simpleFileNodeParser
  | openAiEmbedding
  | huggingFaceEmbedding
deriving DecidableEq, Repr

/-- Modelled from the spec: a serialized record is a variant shape together
with that variant's own independent field set, which the spec leaves external;
the field set is modelled as an opaque payload. -/
structure SerializedRecord where
  shape : VariantShape
  payload : Nat
deriving DecidableEq, Repr

/-- Modelled from the spec: the typed union
`ConfiguredTransformationItemComponentOne`, one constructor per variant,
each carrying that variant's opaque field set. -/
inductive ConfiguredTransformationItemComponentOne where
  | keywordExtractor (fields : Nat)
  | titleExtractor (fields : Nat)
  | entityExtractor (fields : Nat)
  | marvinMetadataExtractor (fields : Nat)
  | summaryExtractor (fields : Nat)
  | questionsAnsweredExtractor (fields : Nat)
  | sentenceWindowNodeParser (fields : Nat)
  | hierarchicalNodeParser (fields : Nat)
  | codeNodeParser (fields : Nat)
  | sentenceAwareNodeParser (fields : Nat)
  | tokenAwareNodeParser (fields : Nat)
  | htmlNodeParser (fields : Nat)
  | markdownNodeParser (fields : Nat)
  | jsonNodeParser (fields : Nat)
  | simpleFileNodeParser (fields : Nat)
  | openAiEmbedding (fields : Nat)
  | huggingFaceEmbedding (fields : Nat)
deriving DecidableEq, Repr

/-- Modelled from the spec: the variant a typed value is tagged with. -/
def shapeOf : ConfiguredTransformationItemComponentOne → VariantShape
  | .keywordExtractor _ => .keywordExtractor
  | .titleExtractor _ => .titleExtractor
  | .entityExtractor _ => .entityExtractor
  | .marvinMetadataExtractor _ => .marvinMetadataExtractor
  | .summaryExtractor _ => .summaryExtractor
  | .questionsAnsweredExtractor _ => .questionsAnsweredExtractor
  | .sentenceWindowNodeParser _ => .sentenceWindowNodeParser
  | .hierarchicalNodeParser _ => .hierarchicalNodeParser
  | .codeNodeParser _ => .codeNodeParser
  | .sentenceAwareNodeParser _ => .sentenceAwareNodeParser
  | .tokenAwareNodeParser _ => .tokenAwareNodeParser
  | .htmlNodeParser _ => .htmlNodeParser
  | .markdownNodeParser _ => .markdownNodeParser
  | .jsonNodeParser _ => .jsonNodeParser
  | .simpleFileNodeParser _ => .simpleFileNodeParser
  | .openAiEmbedding _ => .openAiEmbedding
  | .huggingFaceEmbedding _ => .huggingFaceEmbedding

/-- Modelled from the spec: decoding matches the record against the shape it
carries and builds the corresponding typed variant, preserving the field set. -/
def decodeVariant (r : SerializedRecord) : ConfiguredTransformationItemComponentOne :=
  match r.shape with
  | .keywordExtractor => .keywordExtractor r.payload
  | .titleExtractor => .titleExtractor r.payload
  | .entityExtractor => .entityExtractor r.payload
  | .marvinMetadataExtractor => .marvinMetadataExtractor r.payload
  | .summaryExtractor => .summaryExtractor r.payload
  | .questionsAnsweredExtractor => .questionsAnsweredExtractor r.payload
  | .sentenceWindowNodeParser => .sentenceWindowNodeParser r.payload
  | .hierarchicalNodeParser => .hierarchicalNodeParser r.payload
  | .codeNodeParser => .codeNodeParser r.payload
  | .sentenceAwareNodeParser => .sentenceAwareNodeParser r.payload
  | .tokenAwareNodeParser => .tokenAwareNodeParser r.payload
  | .htmlNodeParser => .htmlNodeParser r.payload
  | .markdownNodeParser => .markdownNodeParser r.payload
  | .jsonNodeParser => .jsonNodeParser r.payload
  | .simpleFileNodeParser => .simpleFileNodeParser r.payload
  | .openAiEmbedding => .openAiEmbedding r.payload
  | .huggingFaceEmbedding => .huggingFaceEmbedding r.payload

/-- Modelled from the spec: encoding emits the variant's shape tag together
with its field set, losslessly. -/
def encodeVariant (v : ConfiguredTransformationItemComponentOne) : SerializedRecord :=
  match v with
  | .keywordExtractor p => ⟨.keywordExtractor, p⟩
  | .titleExtractor p => ⟨.titleExtractor, p⟩
  | .entityExtractor p => ⟨.entityExtractor, p⟩
  | .marvinMetadataExtractor p => ⟨.marvinMetadataExtractor, p⟩
  | .summaryExtractor p => ⟨.summaryExtractor, p⟩
  | .questionsAnsweredExtractor p => ⟨.questionsAnsweredExtractor, p⟩
  | .sentenceWindowNodeParser p => ⟨.sentenceWindowNodeParser, p⟩
  | .hierarchicalNodeParser p => ⟨.hierarchicalNodeParser, p⟩
  | .codeNodeParser p => ⟨.codeNodeParser, p⟩
  | .sentenceAwareNodeParser p => ⟨.sentenceAwareNodeParser, p⟩
  | .tokenAwareNodeParser p => ⟨.tokenAwareNodeParser, p⟩
  | .htmlNodeParser p => ⟨.htmlNodeParser, p⟩
  | .markdownNodeParser p => ⟨.markdownNodeParser, p⟩
  | .jsonNodeParser p => ⟨.jsonNodeParser, p⟩
  | .simpleFileNodeParser p => ⟨.simpleFileNodeParser, p⟩
  | .openAiEmbedding p => ⟨.openAiEmbedding, p⟩
  | .huggingFaceEmbedding p => ⟨.huggingFaceEmbedding, p⟩

/-- A concrete external-collaborator instance used by witness theorems. -/
def ext0 : Externals where
  resolve_llm := fun _ => { id := 10, metadata := ⟨1⟩, pydantic_program_mode := ⟨0⟩ }
  resolve_embed_model := fun _ => ⟨20⟩
  callback_manager_new := ⟨30⟩
  get_tokenizer := ⟨40⟩
  sentence_splitter_new := { id := 50, chunk_size := some 1024, chunk_overlap := some 20 }
  prompt_helper_new := { id := 60, num_output := 256, context_window := 3900 }
  prompt_helper_from_llm_metadata := fun m => { id := 100 + m.id, num_output := 7, context_window := 8 }
  set_global_handler := fun _ => some ⟨70⟩

/-- A concrete LLM handle used by witness theorems. -/
def llmA : LLM := { id := 11, metadata := ⟨2⟩, pydantic_program_mode := ⟨3⟩ }

/-- A concrete prompt helper used by witness theorems. -/
def phA : PromptHelper := { id := 61, num_output := 9, context_window := 10 }

/-- A concrete tokenizer used by witness theorems. -/
def tokA : Tokenizer := ⟨41⟩

/-- A concrete node parser lacking both chunk attributes. -/
def npNo : NodeParser := { id := 5, chunk_size := none, chunk_overlap := none }

/-- Settings whose active node parser lacks chunk attributes. -/
def sNo : _Settings := { _nodeParser := some npNo }

/-- The fresh (all-`None`) settings record. -/
def s0 : _Settings := {}

/-- The fresh world: fresh settings and no globals installed. -/
def w0 : World := { settings := s0, global_tokenizer := none, global_handler := none }

/-- Did an operation raise Python's `UnsupportedOperation`? -/
def raisedUnsupportedOperation {α : Type} : Except PyError α → Bool
  | .error (.unsupportedOperation _) => true
  | _ => false

lemma llm_get_val (ext : Externals) (s : _Settings) :
    (llm_get ext s).1 = s._llm.getD (ext.resolve_llm "default") := by
  cases h : s._llm <;> simp [llm_get, h]

lemma llm_get_state (ext : Externals) (s : _Settings) :
    (llm_get ext s).2.1 = { s with _llm := some (llm_get ext s).1 } := by
  cases h : s._llm <;> simp [llm_get, h]
  rw [← h]

lemma llm_get_events (ext : Externals) (s : _Settings) :
    (llm_get ext s).2.2 = if s._llm = none then [SField.llm] else [] := by
  cases h : s._llm <;> simp [llm_get, h]

lemma embed_model_get_val (ext : Externals) (s : _Settings) :
    (embed_model_get ext s).1 = s._embed_model.getD (ext.resolve_embed_model "default") := by
  cases h : s._embed_model <;> simp [embed_model_get, h]

lemma embed_model_get_state (ext : Externals) (s : _Settings) :
    (embed_model_get ext s).2.1 = { s with _embed_model := some (embed_model_get ext s).1 } := by
  cases h : s._embed_model <;> simp [embed_model_get, h]
  rw [← h]

lemma embed_model_get_events (ext : Externals) (s : _Settings) :
    (embed_model_get ext s).2.2 = if s._embed_model = none then [SField.embed_model] else [] := by
  cases h : s._embed_model <;> simp [embed_model_get, h]

lemma callback_manager_get_val (ext : Externals) (s : _Settings) :
    (callback_manager_get ext s).1 = s._callback_manager.getD ext.callback_manager_new := by
  cases h : s._callback_manager <;> simp [callback_manager_get, h]

lemma callback_manager_get_state (ext : Externals) (s : _Settings) :
    (callback_manager_get ext s).2.1 =
      { s with _callback_manager := some (callback_manager_get ext s).1 } := by
  cases h : s._callback_manager <;> simp [callback_manager_get, h]
  rw [← h]

lemma callback_manager_get_events (ext : Externals) (s : _Settings) :
    (callback_manager_get ext s).2.2 =
      if s._callback_manager = none then [SField.callback_manager] else [] := by
  cases h : s._callback_manager <;> simp [callback_manager_get, h]

lemma tokenizer_get_val (ext : Externals) (s : _Settings) :
    (tokenizer_get ext s).1 = s._tokenizer.getD ext.get_tokenizer := by
  cases h : s._tokenizer <;> simp [tokenizer_get, h]

lemma tokenizer_get_state (ext : Externals) (s : _Settings) :
    (tokenizer_get ext s).2.1 = { s with _tokenizer := some (tokenizer_get ext s).1 } := by
  cases h : s._tokenizer <;> simp [tokenizer_get, h]
  rw [← h]

lemma tokenizer_get_events (ext : Externals) (s : _Settings) :
    (tokenizer_get ext s).2.2 = if s._tokenizer = none then [SField.tokenizer] else [] := by
  cases h : s._tokenizer <;> simp [tokenizer_get, h]

lemma nodeParser_get_val (ext : Externals) (s : _Settings) :
    (nodeParser_get ext s).1 = s._nodeParser.getD ext.sentence_splitter_new := by
  cases h : s._nodeParser <;> simp [nodeParser_get, h]

lemma nodeParser_get_state (ext : Externals) (s : _Settings) :
    (nodeParser_get ext s).2.1 = { s with _nodeParser := some (nodeParser_get ext s).1 } := by
  cases h : s._nodeParser <;> simp [nodeParser_get, h]
  rw [← h]

lemma nodeParser_get_events (ext : Externals) (s : _Settings) :
    (nodeParser_get ext s).2.2 = if s._nodeParser = none then [SField.nodeParser] else [] := by
  cases h : s._nodeParser <;> simp [nodeParser_get, h]

lemma nodeParser_get_idem (ext : Externals) (s : _Settings) :
    nodeParser_get ext (nodeParser_get ext s).2.1 =
      ((nodeParser_get ext s).1, (nodeParser_get ext s).2.1, []) := by
  cases h : s._nodeParser <;> simp [nodeParser_get, h]

lemma nodeParser_get_cachedLit (ext : Externals) (s : _Settings) (v : NodeParser) :
    nodeParser_get ext { s with _nodeParser := some v } =
      (v, { s with _nodeParser := some v }, []) := rfl

lemma prompt_helper_get_val (ext : Externals) (s : _Settings) :
    (prompt_helper_get ext s).1 =
      s._prompt_helper.getD (defaultOf ext s SField.prompt_helper) := by
  cases h : s._llm <;> cases h2 : s._prompt_helper <;>
    simp [prompt_helper_get, defaultOf, h, h2]

lemma prompt_helper_get_state (ext : Externals) (s : _Settings) :
    (prompt_helper_get ext s).2.1 =
      { s with _prompt_helper := some (prompt_helper_get ext s).1 } := by
  cases h : s._llm <;> cases h2 : s._prompt_helper <;>
    simp [prompt_helper_get, h, h2] <;> rw [← h, ← h2]

lemma prompt_helper_get_events (ext : Externals) (s : _Settings) :
    (prompt_helper_get ext s).2.2 =
      if s._prompt_helper = none then [SField.prompt_helper] else [] := by
  cases h : s._llm <;> cases h2 : s._prompt_helper <;>
    simp [prompt_helper_get, h, h2]

lemma transformations_get_val (ext : Externals) (s : _Settings) :
    (transformations_get ext s).1 =
      s._transformations.getD [TransformComponent.ofNodeParser (nodeParser_get ext s).1] := by
  cases h : s._transformations <;> simp [transformations_get, h]

lemma transformations_get_state (ext : Externals) (s : _Settings) :
    (transformations_get ext s).2.1 =
      if s._transformations = none then
        { s with _nodeParser := some (nodeParser_get ext s).1,
                 _transformations := some (transformations_get ext s).1 }
      else s := by
  cases h : s._transformations <;>
    simp [transformations_get, h, nodeParser_get_state]

lemma transformations_get_events (ext : Externals) (s : _Settings) :
    (transformations_get ext s).2.2 =
      if s._transformations = none then
        (nodeParser_get ext s).2.2 ++ [SField.transformations]
      else [] := by
  cases h : s._transformations <;> simp [transformations_get, h]

lemma pydantic_program_mode_set_spec (ext : Externals) (v : PydanticProgramMode)
    (s : _Settings) :
    pydantic_program_mode_set ext v s =
      ({ s with _llm := some { (llm_get ext s).1 with pydantic_program_mode := v } },
       (llm_get ext s).2.2) := by
  simp [pydantic_program_mode_set, llm_get_state]

lemma chunk_size_get_spec (ext : Externals) (s : _Settings) :
    (chunk_size_get ext s).2.1 = { s with _nodeParser := some (nodeParser_get ext s).1 }
    ∧ (chunk_size_get ext s).2.2 = (nodeParser_get ext s).2.2 := by
  cases h : (nodeParser_get ext s).1.chunk_size <;>
    simp [chunk_size_get, h, nodeParser_get_idem, nodeParser_get_state, nodeParser_get_cachedLit]

lemma chunk_size_set_spec (ext : Externals) (v : Int) (s : _Settings) :
    (chunk_size_set ext v s).2.1 =
      (if (nodeParser_get ext s).1.chunk_size = none then
        { s with _nodeParser := some (nodeParser_get ext s).1 }
      else
        { s with _nodeParser := some { (nodeParser_get ext s).1 with chunk_size := some v } })
    ∧ (chunk_size_set ext v s).2.2 = (nodeParser_get ext s).2.2 := by
  cases h : (nodeParser_get ext s).1.chunk_size <;>
    simp [chunk_size_set, h, nodeParser_get_idem, nodeParser_get_state, nodeParser_get_cachedLit]

lemma chunk_overlap_get_spec (ext : Externals) (s : _Settings) :
    (chunk_overlap_get ext s).2.1 = { s with _nodeParser := some (nodeParser_get ext s).1 }
    ∧ (chunk_overlap_get ext s).2.2 = (nodeParser_get ext s).2.2 := by
  cases h : (nodeParser_get ext s).1.chunk_overlap <;>
    simp [chunk_overlap_get, h, nodeParser_get_idem, nodeParser_get_state, nodeParser_get_cachedLit]

lemma chunk_overlap_set_spec (ext : Externals) (v : Int) (s : _Settings) :
    (chunk_overlap_set ext v s).2.1 =
      (if (nodeParser_get ext s).1.chunk_overlap = none then
        { s with _nodeParser := some (nodeParser_get ext s).1 }
      else
        { s with _nodeParser := some { (nodeParser_get ext s).1 with chunk_overlap := some v } })
    ∧ (chunk_overlap_set ext v s).2.2 = (nodeParser_get ext s).2.2 := by
  cases h : (nodeParser_get ext s).1.chunk_overlap <;>
    simp [chunk_overlap_set, h, nodeParser_get_idem, nodeParser_get_state, nodeParser_get_cachedLit]

lemma num_output_set_spec (ext : Externals) (v : Int) (s : _Settings) :
    num_output_set ext v s =
      ({ s with _prompt_helper := some { (prompt_helper_get ext s).1 with num_output := v } },
       (prompt_helper_get ext s).2.2) := by
  simp [num_output_set, prompt_helper_get_state]

lemma context_window_set_spec (ext : Externals) (v : Int) (s : _Settings) :
    context_window_set ext v s =
      ({ s with _prompt_helper := some { (prompt_helper_get ext s).1 with context_window := v } },
       (prompt_helper_get ext s).2.2) := by
  simp [context_window_set, prompt_helper_get_state]

/-- C1: if the model field is set before `prompt_helper` is first read, the
first read returns a helper built from that model's metadata via the
metadata-derived constructor; if `prompt_helper` is read before the model is
set, the parameterless default helper is used; and the choice is permanent:
once a helper is cached, reading it returns the cache, even after the model is
set afterwards. -/
theorem prompt_helper_model_choice (ext : Externals) (s : _Settings) :
    (∀ l, s._llm = some l → s._prompt_helper = none →
      prompt_helper_get ext s =
        (ext.prompt_helper_from_llm_metadata l.metadata,
         { s with _prompt_helper := some (ext.prompt_helper_from_llm_metadata l.metadata) },
         [SField.prompt_helper]))
    ∧ (s._llm = none → s._prompt_helper = none →
      prompt_helper_get ext s =
        (ext.prompt_helper_new,
         { s with _prompt_helper := some ext.prompt_helper_new },
         [SField.prompt_helper]))
    ∧ (∀ p, s._prompt_helper = some p →
        (prompt_helper_get ext s).1 = p
        ∧ ∀ l, (prompt_helper_get ext (llm_set l s)).1 = p) := by
  refine ⟨fun l h1 h2 => ?_, fun h1 h2 => ?_, fun p hp => ⟨?_, fun l => ?_⟩⟩
  · simp [prompt_helper_get, h1, h2]
  · simp [prompt_helper_get, h1, h2]
  · cases h : s._llm <;> simp [prompt_helper_get, h, hp]
  · simp [prompt_helper_get, llm_set, hp]

/-- Witness for C1 at concrete inputs: model set first gives the
metadata-derived helper; read first gives the parameterless helper; a cached
helper survives a later model assignment. -/
theorem prompt_helper_model_choice_witness :
    (prompt_helper_get ext0 { _llm := some llmA }).1 =
      ext0.prompt_helper_from_llm_metadata llmA.metadata
    ∧ (prompt_helper_get ext0 s0).1 = ext0.prompt_helper_new
    ∧ (prompt_helper_get ext0 (llm_set llmA { _prompt_helper := some phA })).1 = phA := by
  refine ⟨?_, ?_, ?_⟩
  · have h := (prompt_helper_model_choice ext0 { _llm := some llmA }).1 llmA rfl rfl
    rw [h]
  · have h := (prompt_helper_model_choice ext0 s0).2.1 rfl rfl
    rw [h]
  · exact ((prompt_helper_model_choice ext0 { _prompt_helper := some phA }).2.2 phA rfl).2 llmA

/-- C2 counterexample: at a concrete state whose active node parser lacks the
chunk-size attribute, reading `chunk_size` raises a `ValueError`, not an error
of the `UnsupportedOperation` kind as the claim states. -/
theorem chunk_size_error_is_valueError :
    (nodeParser_get ext0 sNo).1.chunk_size = none
    ∧ (chunk_size_get ext0 sNo).1 =
        Except.error (PyError.valueError "Configured node parser does not have chunk size.")
    ∧ raisedUnsupportedOperation (chunk_size_get ext0 sNo).1 = false :=
  ⟨rfl, rfl, rfl⟩

/-- C2 (amended): for every settings state, the `chunk_size` and
`chunk_overlap` getters and setters raise a `ValueError` (not
`UnsupportedOperation`) when the active node parser lacks the corresponding
attribute, and succeed — the getter reading through to the parser's attribute
and the setter writing through to it — when the parser has that attribute. -/
theorem chunk_props_valueError_or_passthrough (ext : Externals) (s : _Settings) :
    ((nodeParser_get ext s).1.chunk_size = none →
      (chunk_size_get ext s).1 =
        Except.error (PyError.valueError "Configured node parser does not have chunk size.")
      ∧ ∀ v, (chunk_size_set ext v s).1 =
        Except.error (PyError.valueError "Configured node parser does not have chunk size."))
    ∧ (∀ c, (nodeParser_get ext s).1.chunk_size = some c →
      (chunk_size_get ext s).1 = Except.ok c
      ∧ ∀ v, (chunk_size_set ext v s).1 = Except.ok ()
        ∧ (chunk_size_set ext v s).2.1._nodeParser =
            some { (nodeParser_get ext s).1 with chunk_size := some v })
    ∧ ((nodeParser_get ext s).1.chunk_overlap = none →
      (chunk_overlap_get ext s).1 =
        Except.error (PyError.valueError "Configured node parser does not have chunk overlap.")
      ∧ ∀ v, (chunk_overlap_set ext v s).1 =
        Except.error (PyError.valueError "Configured node parser does not have chunk overlap."))
    ∧ (∀ c, (nodeParser_get ext s).1.chunk_overlap = some c →
      (chunk_overlap_get ext s).1 = Except.ok c
      ∧ ∀ v, (chunk_overlap_set ext v s).1 = Except.ok ()
        ∧ (chunk_overlap_set ext v s).2.1._nodeParser =
            some { (nodeParser_get ext s).1 with chunk_overlap := some v }) := by
  refine ⟨fun h => ⟨?_, fun v => ?_⟩, fun c h => ⟨?_, fun v => ⟨?_, ?_⟩⟩,
          fun h => ⟨?_, fun v => ?_⟩, fun c h => ⟨?_, fun v => ⟨?_, ?_⟩⟩⟩
  · simp [chunk_size_get, h]
  · simp [chunk_size_set, h]
  · simp [chunk_size_get, h, nodeParser_get_idem]
  · simp [chunk_size_set, h, nodeParser_get_idem]
  · simp [(chunk_size_set_spec ext v s).1, h]
  · simp [chunk_overlap_get, h]
  · simp [chunk_overlap_set, h]
  · simp [chunk_overlap_get, h, nodeParser_get_idem]
  · simp [chunk_overlap_set, h, nodeParser_get_idem]
  · simp [(chunk_overlap_set_spec ext v s).1, h]

/-- Witness for C2 (amended): the default splitter of `ext0` has a chunk size
(passthrough succeeds with it), and the attribute-free parser of `sNo` makes
the getter raise `ValueError`. -/
theorem chunk_props_witness :
    (nodeParser_get ext0 sNo).1.chunk_size = none
    ∧ (chunk_size_get ext0 sNo).1 =
        Except.error (PyError.valueError "Configured node parser does not have chunk size.")
    ∧ (nodeParser_get ext0 s0).1.chunk_size = some 1024
    ∧ (chunk_size_get ext0 s0).1 = Except.ok 1024 := by
  refine ⟨rfl, ((chunk_props_valueError_or_passthrough ext0 sNo).1 rfl).1, rfl, ?_⟩
  exact ((chunk_props_valueError_or_passthrough ext0 s0).2.1 1024 rfl).1

/-- C3: reading any lazily-initialized field before any write returns that
field's documented default, caches it, records exactly one default
materialization for it, and a second read returns the identical cached value
with no state change and no re-computation. -/
theorem lazy_default_first_read (ext : Externals) (s : _Settings) (f : SField)
    (h : fieldOpt f s = none) :
    (getField f ext s).1 = defaultOf ext s f
    ∧ fieldOpt f (getField f ext s).2.1 = some ((getField f ext s).1)
    ∧ f ∈ (getField f ext s).2.2
    ∧ getField f ext ((getField f ext s).2.1) =
        ((getField f ext s).1, (getField f ext s).2.1, ([] : List SField)) := by
  cases f
  case llm => simp_all [getField, fieldOpt, defaultOf, llm_get]
  case embed_model => simp_all [getField, fieldOpt, defaultOf, embed_model_get]
  case callback_manager => simp_all [getField, fieldOpt, defaultOf, callback_manager_get]
  case tokenizer => simp_all [getField, fieldOpt, defaultOf, tokenizer_get]
  case nodeParser => simp_all [getField, fieldOpt, defaultOf, nodeParser_get]
  case prompt_helper =>
    cases h2 : s._llm <;>
      simp_all [getField, fieldOpt, defaultOf, prompt_helper_get]
  case transformations =>
    cases h2 : s._nodeParser <;>
      simp_all [getField, fieldOpt, defaultOf, transformations_get, nodeParser_get]

/-- Witness for C3: first read of `llm` on the fresh settings record. -/
theorem lazy_default_first_read_witness :
    fieldOpt SField.llm s0 = none
    ∧ ((getField SField.llm ext0 s0).1 = defaultOf ext0 s0 SField.llm
       ∧ fieldOpt SField.llm (getField SField.llm ext0 s0).2.1 =
           some ((getField SField.llm ext0 s0).1)
       ∧ SField.llm ∈ (getField SField.llm ext0 s0).2.2
       ∧ getField SField.llm ext0 ((getField SField.llm ext0 s0).2.1) =
           ((getField SField.llm ext0 s0).1, (getField SField.llm ext0 s0).2.1,
            ([] : List SField))) :=
  ⟨rfl, lazy_default_first_read ext0 s0 SField.llm rfl⟩

/-- C4: for every lazily-initialized field and every value, setting the field
and then getting it returns exactly that value, with the default-computation
path never taken (no default event, no state change). -/
theorem set_then_get_roundtrip (ext : Externals) (s : _Settings) (f : SField)
    (v : f.ty) :
    getField f ext (setField f v s) = (v, setField f v s, ([] : List SField)) := by
  cases f
  case prompt_helper =>
    cases h : s._llm <;>
      simp [getField, setField, prompt_helper_set, prompt_helper_get, h]
  all_goals rfl

/-- C5 counterexample: the source defines six fallback-resolver free functions
(`llm`, `embed_model`, `callback_manager`, `node_parser`, `prompt_helper`,
`transformations`), so the claimed count of exactly five is false. -/
theorem resolver_count_not_five :
    ¬ (settings_or_context_resolvers.length = 5) := by decide

/-- C5 (amended): there are exactly six fallback-resolver free functions, and
each `resolve(field, context)` returns `context.field` whenever the context is
not absent — regardless of the facade's own value for that field — and returns
`facade.field` (running the facade's getter, hence its lazy default when
uncached) whenever the context is absent. -/
theorem six_fallback_resolvers :
    settings_or_context_resolvers.length = 6
    ∧ (∀ f : ResolverField, f ∈ settings_or_context_resolvers)
    ∧ (∀ (f : ResolverField) (ext : Externals) (s : _Settings) (c : ServiceContext),
        from_settings_or_context f ext s (some c) = (contextField c f, s))
    ∧ (∀ (f : ResolverField) (ext : Externals) (s : _Settings),
        from_settings_or_context f ext s none =
          ((getField f.toSField ext s).1, (getField f.toSField ext s).2.1)) := by
  refine ⟨rfl, fun f => ?_, fun f ext s c => ?_, fun f ext s => ?_⟩
  · cases f <;> simp [settings_or_context_resolvers]
  · cases f <;> rfl
  · cases f <;> rfl

/-- C6: the default of `transformations`, materialized on first read, is the
one-element sequence holding the node parser current at that moment
(materializing the parser's own default if still unset), and the setter
replaces the sequence wholesale. -/
theorem transformations_default_and_wholesale (ext : Externals) (s : _Settings) :
    (s._transformations = none →
      transformations_get ext s =
        ([TransformComponent.ofNodeParser (nodeParser_get ext s).1],
         { s with _nodeParser := some (nodeParser_get ext s).1, _transformations := some [TransformComponent.ofNodeParser (nodeParser_get ext s).1] },
         (nodeParser_get ext s).2.2 ++ [SField.transformations]))
    ∧ ∀ v, transformations_get ext (transformations_set v s) =
        (v, transformations_set v s, ([] : List SField)) := by
  constructor
  · intro h
    simp [transformations_get, h, nodeParser_get_state]
  · intro v
    rfl

/-- Witness for C6: first read of `transformations` on the fresh settings
record wraps the freshly materialized default node parser. -/
theorem transformations_default_witness :
    transformations_get ext0 s0 =
      ([TransformComponent.ofNodeParser (nodeParser_get ext0 s0).1],
       { s0 with _nodeParser := some (nodeParser_get ext0 s0).1, _transformations := some [TransformComponent.ofNodeParser (nodeParser_get ext0 s0).1] },
       (nodeParser_get ext0 s0).2.2 ++ [SField.transformations]) :=
  (transformations_default_and_wholesale ext0 s0).1 rfl

/-- C8: for each of the seventeen known transformation-variant shapes, decoding
a serialized record of that shape yields a value tagged with that variant, and
re-encoding that value reproduces the original record losslessly. -/
theorem variant_decode_encode_roundtrip (r : SerializedRecord) :
    shapeOf (decodeVariant r) = r.shape ∧ encodeVariant (decodeVariant r) = r := by
  obtain ⟨sh, p⟩ := r
  cases sh <;> exact ⟨rfl, rfl⟩

/-- C10: `text_splitter` is an exact alias of `node_parser`: its getter agrees
with the node-parser getter (value, state, and default events), and its setter
produces the identical state as the node-parser setter. -/
theorem text_splitter_aliases (ext : Externals) (s : _Settings) :
    text_splitter_get ext s = nodeParser_get ext s
    ∧ ∀ v, text_splitter_set v s = nodeParser_set v s :=
  ⟨rfl, fun _ => rfl⟩

/-- C7: once a field of the settings record is materialized, no operation of
the facade ever re-runs that field's default rule (the field never appears in
any later operation's default-event list), and no operation other than an
explicit assignment into that field (its setter, or a derived setter writing
through to it) replaces its cached value. -/
theorem materialized_never_redefaulted (ext : Externals) (op : Op) (w : World)
    (f : SField) (v : f.ty) (h : fieldOpt f w.settings = some v) :
    f ∉ (step ext op w).2
    ∧ (writers f op = false → fieldOpt f (step ext op w).1.settings = some v) := by
  cases f <;> cases op <;>
    simp_all [step, liftS, writers, fieldOpt,
      llm_get_state, llm_get_events, llm_get_val,
      embed_model_get_state, embed_model_get_events, embed_model_get_val,
      callback_manager_get_state, callback_manager_get_events, callback_manager_get_val,
      tokenizer_get_state, tokenizer_get_events, tokenizer_get_val,
      nodeParser_get_state, nodeParser_get_events, nodeParser_get_val,
      prompt_helper_get_state, prompt_helper_get_events, prompt_helper_get_val,
      transformations_get_state, transformations_get_events, transformations_get_val,
      pydantic_program_mode_get, pydantic_program_mode_set_spec,
      chunk_size_get_spec, chunk_size_set_spec,
      chunk_overlap_get_spec, chunk_overlap_set_spec,
      num_output_get, num_output_set_spec,
      context_window_get, context_window_set_spec,
      tokenizer_set_world, set_global_tokenizer, global_handler_set,
      global_handler_get, llm_set, embed_model_set, callback_manager_set,
      nodeParser_set, text_splitter_get, text_splitter_set, prompt_helper_set,
      transformations_set] <;>
    split_ifs <;> simp_all

/-- A concrete world whose `llm` field is materialized, for witnessing. -/
def wA : World :=
  { settings := llm_set llmA s0, global_tokenizer := none, global_handler := none }

/-- Witness for C7: with `llm` materialized, reading `prompt_helper` neither
re-runs the llm default nor replaces the cached llm. -/
theorem materialized_never_redefaulted_witness :
    fieldOpt SField.llm wA.settings = some llmA
    ∧ (SField.llm ∉ (step ext0 Op.get_prompt_helper wA).2
       ∧ (writers SField.llm Op.get_prompt_helper = false →
           fieldOpt SField.llm (step ext0 Op.get_prompt_helper wA).1.settings =
             some llmA)) :=
  ⟨rfl, materialized_never_redefaulted ext0 Op.get_prompt_helper wA SField.llm llmA rfl⟩

/-- C9: the `tokenizer` setter is the only one with an extra side effect: it
overwrites the cached tokenizer and also invokes the deprecated
`set_global_tokenizer` with the same value, mutating the process-global
tokenizer; every other setter of the facade leaves the global tokenizer
untouched. -/
theorem tokenizer_setter_global_side_effect (ext : Externals) (w : World) :
    (∀ v, step ext (Op.set_tokenizer v) w =
      ({ settings := { w.settings with _tokenizer := some v },
         global_tokenizer := some v,
         global_handler := w.global_handler }, []))
    ∧ (∀ op, isSetter op = true → (∀ v, op ≠ Op.set_tokenizer v) →
        (step ext op w).1.global_tokenizer = w.global_tokenizer) := by
  constructor
  · intro v
    rfl
  · intro op hs hne
    cases op
    case set_tokenizer v2 => exact absurd rfl (hne v2)
    all_goals rfl

/-- Witness for C9: setting the tokenizer on the fresh world installs it both
in the settings record and as the global tokenizer, while setting the llm
leaves the global tokenizer unchanged. -/
theorem tokenizer_side_effect_witness :
    step ext0 (Op.set_tokenizer tokA) w0 =
      ({ settings := { s0 with _tokenizer := some tokA },
         global_tokenizer := some tokA,
         global_handler := none }, [])
    ∧ (step ext0 (Op.set_llm llmA) w0).1.global_tokenizer = w0.global_tokenizer := by
  refine ⟨?_, ?_⟩
  · have h := (tokenizer_setter_global_side_effect ext0 w0).1 tokA
    rw [h]
    rfl
  · exact (tokenizer_setter_global_side_effect ext0 w0).2 (Op.set_llm llmA) rfl
      (fun v => by simp)
